import Mathlib

/-!
Shallow embedding of the geometric layout and validation engine of
`sophie-baby-diary` (modules/config.py, modules/coordinates.py,
modules/validation.py, modules/layout.py, modules/rendering.py).

Python floats are modelled as rationals (ℚ); Python `int(...)` applied to a
float truncates toward zero, modelled by `pyInt`.  Python functions that can
raise are modelled as `Except` values over an explicit error type.
-/

namespace SophieDiary

/-- Python `int(q)` on a float: truncation toward zero. -/
def pyInt (q : ℚ) : ℤ := if 0 ≤ q then ⌊q⌋ else ⌈q⌉

/-- config.py: `MAX_PLACEHOLDERS_PER_PAGE = 6`. -/
def MAX_PLACEHOLDERS_PER_PAGE : ℕ := 6

/-! ## modules/coordinates.py -/

/-- coordinates.py `px_to_mm`: `(px / dpi) * 25.4`. -/
def px_to_mm (px : ℚ) (dpi : ℤ) : ℚ := (px / dpi) * (254 / 10)

/-- coordinates.py `mm_to_px`: `(mm / 25.4) * dpi`. -/
def mm_to_px (mm : ℚ) (dpi : ℤ) : ℚ := (mm / (254 / 10)) * dpi

/-- coordinates.py `mm_to_pdf_coords`: top-left mm → bottom-left points,
`x_pt = x_mm * 2.834`, `y_pt = (page_height_mm - y_mm) * 2.834`. -/
def mm_to_pdf_coords (x_mm y_mm page_height_mm : ℚ) : ℚ × ℚ :=
  (x_mm * (2834 / 1000), (page_height_mm - y_mm) * (2834 / 1000))

/-! ## modules/validation.py -/

/-- validation.py `BBoxMM`: bounding box in millimeters, top-left origin. -/
structure BBoxMM where
  x : ℚ
  y : ℚ
  width : ℚ
  height : ℚ
deriving DecidableEq, Repr

/-- Pydantic field constraints on `BBoxMM`: `x ≥ 0`, `y ≥ 0`,
`width > 0`, `height > 0`. -/
def BBoxMM.fieldsOk (b : BBoxMM) : Bool :=
  decide (0 ≤ b.x) && decide (0 ≤ b.y) && decide (0 < b.width) && decide (0 < b.height)

/-- validation.py `Placeholder`. -/
structure Placeholder where
  id : String
  bbox_mm : BBoxMM
  detection_method : String
  confidence : ℚ
  notes : String
deriving DecidableEq, Repr

/-- Pydantic field constraints on `Placeholder`: nested bbox constraints and
`0 ≤ confidence ≤ 1`. -/
def Placeholder.fieldsOk (p : Placeholder) : Bool :=
  p.bbox_mm.fieldsOk && decide (0 ≤ p.confidence) && decide (p.confidence ≤ 1)

/-- validation.py `DetectionOutput` (fields; `page_size_mm` dict flattened
to its two entries). -/
structure DetectionOutput where
  schema_version : String
  page : ℤ
  book_id : String
  scan_dpi : ℤ
  page_size_mm_width : ℚ
  page_size_mm_height : ℚ
  coordinate_system : String
  placeholders : List Placeholder
  validation_passed : Bool
  detected_at : String
deriving DecidableEq, Repr

/-- validation.py `DetectionOutput.check_count` field validator: rejects a
placeholder list longer than `MAX_PLACEHOLDERS_PER_PAGE`, otherwise returns
it unchanged. -/
def check_count (v : List Placeholder) : Except String (List Placeholder) :=
  if v.length > MAX_PLACEHOLDERS_PER_PAGE then
    .error ("Placeholder count must be 0-" ++ toString MAX_PLACEHOLDERS_PER_PAGE
      ++ ", got " ++ toString v.length)
  else
    .ok v

/-- Pydantic model construction for `DetectionOutput`: runs the declared
field constraints (`page ≥ 1`, `scan_dpi > 0`, nested placeholder
constraints) and the `check_count` validator.  The `check_timestamp_format`
validator delegates to `datetime.fromisoformat`, a library call outside
this embedding; none of the verified properties depend on it. -/
def DetectionOutput.construct (d : DetectionOutput) : Except String DetectionOutput :=
  if d.page < 1 then .error "page must be greater than or equal to 1"
  else if d.scan_dpi ≤ 0 then .error "scan_dpi must be greater than 0"
  else if !(d.placeholders.all Placeholder.fieldsOk) then
    .error "placeholder field validation failed"
  else
    (check_count d.placeholders).map fun _ => d

/-- validation.py `calculate_iou`: axis-aligned-rectangle intersection over
union. -/
def calculate_iou (bbox1 bbox2 : BBoxMM) : ℚ :=
  let x1_inter := max bbox1.x bbox2.x
  let y1_inter := max bbox1.y bbox2.y
  let x2_inter := min (bbox1.x + bbox1.width) (bbox2.x + bbox2.width)
  let y2_inter := min (bbox1.y + bbox1.height) (bbox2.y + bbox2.height)
  if x2_inter < x1_inter ∨ y2_inter < y1_inter then 0
  else
    let intersection_area := (x2_inter - x1_inter) * (y2_inter - y1_inter)
    let area1 := bbox1.width * bbox1.height
    let area2 := bbox2.width * bbox2.height
    let union_area := area1 + area2 - intersection_area
    if 0 < union_area then intersection_area / union_area else 0

/-- validation.py `check_bbox_within_page`. -/
def check_bbox_within_page (bbox : BBoxMM) (page_width_mm page_height_mm : ℚ) : Bool :=
  decide (0 ≤ bbox.x) && decide (0 ≤ bbox.y)
    && decide (bbox.x + bbox.width ≤ page_width_mm)
    && decide (bbox.y + bbox.height ≤ page_height_mm)

/-! ## modules/rendering.py -/

/-- rendering.py `CalibrationData` (the `offset_mm` dict flattened to its
two entries). -/
structure CalibrationData where
  printer_name : String
  paper_type : String
  scale_factor_x : ℚ
  scale_factor_y : ℚ
  offset_mm_x : ℚ
  offset_mm_y : ℚ
  notes : String
deriving DecidableEq, Repr

/-- rendering.py `apply_calibration`: affine adjustment of a bounding box
(the Python dict `{x, y, width, height}` is represented by `BBoxMM`). -/
def apply_calibration (bbox_mm : BBoxMM) (calibration : CalibrationData) : BBoxMM :=
  ⟨bbox_mm.x * calibration.scale_factor_x + calibration.offset_mm_x,
   bbox_mm.y * calibration.scale_factor_y + calibration.offset_mm_y,
   bbox_mm.width * calibration.scale_factor_x,
   bbox_mm.height * calibration.scale_factor_y⟩

/-! ## modules/layout.py -/

/-- Python exceptions raised by the layout module. -/
inductive PyError where
  | valueError : String → PyError
  | zeroDivisionError : PyError
deriving DecidableEq, Repr

/-- layout.py `Transform.crop_rect_px` dict `{x, y, width, height}` in
source-image pixel space. -/
structure CropRect where
  x : ℤ
  y : ℤ
  width : ℤ
  height : ℤ
deriving DecidableEq, Repr

/-- layout.py `Transform`. -/
structure Transform where
  scale_factor : ℚ
  crop_rect_px : CropRect
deriving DecidableEq, Repr

/-- layout.py `calculate_transform`.  Division by a zero float raises
`ZeroDivisionError` in Python, so the divisors (`source_width_px`,
`source_height_px` and, in fill mode, `scale_factor`) are tested for zero
exactly where the source divides by them.  The source also computes
`scaled_width`, `scaled_height`, `crop_x`, `crop_y` (lines 76-80) but never
uses them in the returned value, so they are omitted. -/
def calculate_transform (source_width_px source_height_px : ℤ)
    (target_width_px target_height_px : ℚ) (mode : String) : Except PyError Transform :=
  if mode = "fill" then
    if source_width_px = 0 ∨ source_height_px = 0 then .error .zeroDivisionError
    else
      let scale_x := target_width_px / source_width_px
      let scale_y := target_height_px / source_height_px
      let scale_factor := max scale_x scale_y
      if scale_factor = 0 then .error .zeroDivisionError
      else
        let crop_width := pyInt (target_width_px / scale_factor)
        let crop_height := pyInt (target_height_px / scale_factor)
        let crop_x_source := pyInt (((source_width_px : ℚ) - (crop_width : ℚ)) / 2)
        let crop_y_source := pyInt (((source_height_px : ℚ) - (crop_height : ℚ)) / 2)
        .ok ⟨scale_factor, ⟨crop_x_source, crop_y_source, crop_width, crop_height⟩⟩
  else if mode = "fit" then
    if source_width_px = 0 ∨ source_height_px = 0 then .error .zeroDivisionError
    else
      let scale_x := target_width_px / source_width_px
      let scale_y := target_height_px / source_height_px
      let scale_factor := min scale_x scale_y
      .ok ⟨scale_factor, ⟨0, 0, source_width_px, source_height_px⟩⟩
  else
    .error (.valueError ("Unsupported scaling mode: " ++ mode))

/-- A candidate image file: its path and the pixel dimensions reported by
the image decoder (`Image.open(...).size`). -/
structure ImageFile where
  name : String
  width_px : ℤ
  height_px : ℤ
deriving DecidableEq, Repr

/-- layout.py `PositionedImage` (the `target_bbox_mm` dict `{x, y, width,
height}` is represented by `BBoxMM`). -/
structure PositionedImage where
  placeholder_id : String
  source_image : String
  target_bbox_mm : BBoxMM
  scaling_mode : String
  transform : Transform
deriving DecidableEq, Repr

/-- layout.py `LayoutOutput`. -/
structure LayoutOutput where
  schema_version : String
  page : ℤ
  book_id : String
  positioned_images : List PositionedImage
deriving DecidableEq, Repr

/-- Errors raised by `create_layout`: the `ValueError` for an empty image
directory, or an exception propagated from `calculate_transform`. -/
inductive LayoutError where
  | noImages : String → LayoutError
  | transformError : PyError → LayoutError
deriving DecidableEq, Repr

/-- layout.py `sorted(glob jpg + glob jpeg)`: the candidate files in
lexicographic filename order. -/
def sortByName (files : List ImageFile) : List ImageFile :=
  files.mergeSort fun a b => decide (a.name ≤ b.name)

/-- One iteration of the `create_layout` loop body: convert the
placeholder's mm box to pixels at `print_dpi`, call `calculate_transform`,
and assemble a `PositionedImage`. -/
def buildPositioned (scaling_mode : String) (print_dpi : ℤ)
    (p : Placeholder) (f : ImageFile) : Except PyError PositionedImage :=
  let target_width_px := mm_to_px p.bbox_mm.width print_dpi
  let target_height_px := mm_to_px p.bbox_mm.height print_dpi
  (calculate_transform f.width_px f.height_px target_width_px target_height_px
      scaling_mode).map fun t =>
    ⟨p.id, f.name, ⟨p.bbox_mm.x, p.bbox_mm.y, p.bbox_mm.width, p.bbox_mm.height⟩,
     scaling_mode, t⟩

/-- The `create_layout` loop over `enumerate(detection.placeholders)` with
`break` once the image list is exhausted: each placeholder is paired with
the image at the same index, so the iteration space is the zip of the two
lists. -/
def buildAll (scaling_mode : String) (print_dpi : ℤ) :
    List (Placeholder × ImageFile) → Except PyError (List PositionedImage)
  | [] => .ok []
  | pf :: rest =>
      match buildPositioned scaling_mode print_dpi pf.1 pf.2 with
      | .error e => .error e
      | .ok entry =>
          match buildAll scaling_mode print_dpi rest with
          | .error e => .error e
          | .ok others => .ok (entry :: others)

/-- layout.py `create_layout`, with file I/O abstracted: the parsed
detection record and the directory's candidate images (with their decoded
pixel dimensions) are inputs; the `glob`+`sorted` step becomes
`sortByName`. -/
def create_layout (detection : DetectionOutput) (files : List ImageFile)
    (scaling_mode : String) (print_dpi : ℤ) : Except LayoutError LayoutOutput :=
  let image_files := sortByName files
  if image_files.isEmpty then .error (.noImages "No images found")
  else
    match buildAll scaling_mode print_dpi (detection.placeholders.zip image_files) with
    | .error e => .error (.transformError e)
    | .ok positioned_images =>
        .ok ⟨"1.0.0", detection.page, detection.book_id, positioned_images⟩

/-! ## Helper lemmas -/

/-- Python `int()` agrees with the floor on nonnegative floats. -/
lemma pyInt_eq_floor {q : ℚ} (h : 0 ≤ q) : pyInt q = ⌊q⌋ := by
  simp [pyInt, h]

/-- The value `calculate_transform` returns in fill mode for positive
inputs, with the truncations written as floors. -/
def fillTransform (sw sh : ℤ) (tw th : ℚ) : Transform :=
  ⟨max (tw / sw) (th / sh),
   ⟨⌊((sw : ℚ) - ((⌊tw / max (tw / sw) (th / sh)⌋ : ℤ) : ℚ)) / 2⌋,
    ⌊((sh : ℚ) - ((⌊th / max (tw / sw) (th / sh)⌋ : ℤ) : ℚ)) / 2⌋,
    ⌊tw / max (tw / sw) (th / sh)⌋,
    ⌊th / max (tw / sw) (th / sh)⌋⟩⟩

lemma fill_scale_pos {sw : ℤ} {tw : ℚ} (hsw : 0 < sw) (htw : 0 < tw) (th sh : ℚ) :
    0 < max (tw / sw) (th / sh) := by
  have hswQ : (0 : ℚ) < (sw : ℚ) := by exact_mod_cast hsw
  exact lt_of_lt_of_le (div_pos htw hswQ) (le_max_left _ _)

/-- If the scale is at least `t / d`, then `⌊t / scale⌋ ≤ d`. -/
lemma floor_div_scale_le {d : ℤ} {t s : ℚ} (hd : 0 < d) (hs : 0 < s)
    (hle : t / d ≤ s) : ⌊t / s⌋ ≤ d := by
  have hdQ : (0 : ℚ) < (d : ℚ) := by exact_mod_cast hd
  have h1 : t ≤ s * d := by
    have := (div_le_iff₀ hdQ).mp hle
    linarith
  have h2 : t / s ≤ (d : ℚ) := by
    rw [div_le_iff₀ hs]
    linarith [mul_comm s (d : ℚ)]
  calc ⌊t / s⌋ ≤ ⌊(d : ℚ)⌋ := Int.floor_le_floor h2
    _ = d := Int.floor_intCast d

/-- For positive inputs, fill mode returns `fillTransform`. -/
lemma fill_transform_eq {sw sh : ℤ} {tw th : ℚ}
    (hsw : 0 < sw) (hsh : 0 < sh) (htw : 0 < tw) (hth : 0 < th) :
    calculate_transform sw sh tw th "fill" = .ok (fillTransform sw sh tw th) := by
  have hs : 0 < max (tw / sw) (th / sh) := fill_scale_pos hsw htw th sh
  have hwcrop : ⌊tw / max (tw / sw) (th / sh)⌋ ≤ sw :=
    floor_div_scale_le hsw hs (le_max_left _ _)
  have hhcrop : ⌊th / max (tw / sw) (th / sh)⌋ ≤ sh :=
    floor_div_scale_le hsh hs (le_max_right _ _)
  have hxnn : (0 : ℚ) ≤ ((sw : ℚ) - ((⌊tw / max (tw / sw) (th / sh)⌋ : ℤ) : ℚ)) / 2 := by
    have : ((⌊tw / max (tw / sw) (th / sh)⌋ : ℤ) : ℚ) ≤ (sw : ℚ) := by exact_mod_cast hwcrop
    linarith
  have hynn : (0 : ℚ) ≤ ((sh : ℚ) - ((⌊th / max (tw / sw) (th / sh)⌋ : ℤ) : ℚ)) / 2 := by
    have : ((⌊th / max (tw / sw) (th / sh)⌋ : ℤ) : ℚ) ≤ (sh : ℚ) := by exact_mod_cast hhcrop
    linarith
  have h0 : ¬(sw = 0 ∨ sh = 0) := by
    push_neg
    exact ⟨ne_of_gt hsw, ne_of_gt hsh⟩
  have hsne : ¬(max (tw / (sw:ℚ)) (th / sh) = 0) := by
    exact fun h => absurd h.symm (ne_of_lt hs)
  simp only [calculate_transform]
  rw [if_pos trivial, if_neg h0, if_neg hsne]
  rw [pyInt_eq_floor (div_pos htw hs).le, pyInt_eq_floor (div_pos hth hs).le,
    pyInt_eq_floor hxnn, pyInt_eq_floor hynn]
  rfl

/-- Bounds for one axis of the centered crop: the crop offset
`⌊(d - ⌊t/s⌋)/2⌋` is nonnegative and offset + size stays within `d`. -/
lemma crop_axis_bounds {d : ℤ} {t s : ℚ} (hd : 0 < d) (hs : 0 < s) (ht : 0 < t)
    (hle : t / d ≤ s) :
    0 ≤ ⌊((d : ℚ) - ((⌊t / s⌋ : ℤ) : ℚ)) / 2⌋ ∧
    ⌊((d : ℚ) - ((⌊t / s⌋ : ℤ) : ℚ)) / 2⌋ + ⌊t / s⌋ ≤ d := by
  have hcle : ⌊t / s⌋ ≤ d := floor_div_scale_le hd hs hle
  have hcleQ : ((⌊t / s⌋ : ℤ) : ℚ) ≤ (d : ℚ) := by exact_mod_cast hcle
  constructor
  · exact Int.floor_nonneg.mpr (by linarith)
  · have harg : ((d : ℚ) - ((⌊t / s⌋ : ℤ) : ℚ)) / 2 = (((d - ⌊t / s⌋ : ℤ) : ℚ)) / 2 := by
      push_cast
      ring
    have h1 : ⌊((d : ℚ) - ((⌊t / s⌋ : ℤ) : ℚ)) / 2⌋ ≤ d - ⌊t / s⌋ := by
      rw [harg]
      calc ⌊(((d - ⌊t / s⌋ : ℤ) : ℚ)) / 2⌋
          ≤ ⌊((d - ⌊t / s⌋ : ℤ) : ℚ)⌋ :=
            Int.floor_le_floor (half_le_self (by exact_mod_cast sub_nonneg.mpr hcle))
        _ = d - ⌊t / s⌋ := Int.floor_intCast _
    omega

/-! ## Claim theorems -/

/-- C1: for all positive source and target pixel dimensions,
`calculate_transform` in fill mode returns
`scale_factor = max(target_w/source_w, target_h/source_h)` and a centered
crop rectangle with `crop_w = floor(target_w/scale)`,
`crop_h = floor(target_h/scale)`, `crop_x = floor((source_w - crop_w)/2)`,
`crop_y = floor((source_h - crop_h)/2)`; in particular, source 800×600 and
target 400×400 give scale 2/3 and a 600×600 crop at (100, 0). -/
theorem fill_mode_transform_spec :
    (∀ (sw sh : ℤ) (tw th : ℚ), 0 < sw → 0 < sh → 0 < tw → 0 < th →
      ∃ t, calculate_transform sw sh tw th "fill" = .ok t ∧
        t.scale_factor = max (tw / sw) (th / sh) ∧
        t.crop_rect_px.width = ⌊tw / max (tw / sw) (th / sh)⌋ ∧
        t.crop_rect_px.height = ⌊th / max (tw / sw) (th / sh)⌋ ∧
        t.crop_rect_px.x = ⌊((sw : ℚ) - ((t.crop_rect_px.width : ℤ) : ℚ)) / 2⌋ ∧
        t.crop_rect_px.y = ⌊((sh : ℚ) - ((t.crop_rect_px.height : ℤ) : ℚ)) / 2⌋) ∧
    calculate_transform 800 600 400 400 "fill" = .ok ⟨2 / 3, ⟨100, 0, 600, 600⟩⟩ := by
  constructor
  · intro sw sh tw th hsw hsh htw hth
    exact ⟨fillTransform sw sh tw th, fill_transform_eq hsw hsh htw hth,
      rfl, rfl, rfl, rfl, rfl⟩
  · norm_num [calculate_transform, max_def, pyInt]

/-- Witness for C1 at source 800×600, target 400×400. -/
theorem fill_mode_transform_spec_witness :
    ∃ t, calculate_transform 800 600 400 400 "fill" = .ok t ∧ t.scale_factor = 2 / 3 := by
  obtain ⟨t, hok, hscale, _⟩ :=
    fill_mode_transform_spec.1 800 600 400 400 (by norm_num) (by norm_num)
      (by norm_num) (by norm_num)
  refine ⟨t, hok, ?_⟩
  rw [hscale]
  norm_num [max_def]

/-- C10 (implicit): for all positive source and target pixel dimensions,
the fill-mode crop rectangle lies entirely within the source image:
`crop_x ≥ 0`, `crop_y ≥ 0`, `crop_x + crop_width ≤ source_width_px`,
`crop_y + crop_height ≤ source_height_px`. -/
theorem fill_crop_within_source (sw sh : ℤ) (tw th : ℚ)
    (hsw : 0 < sw) (hsh : 0 < sh) (htw : 0 < tw) (hth : 0 < th) :
    ∃ t, calculate_transform sw sh tw th "fill" = .ok t ∧
      0 ≤ t.crop_rect_px.x ∧ 0 ≤ t.crop_rect_px.y ∧
      t.crop_rect_px.x + t.crop_rect_px.width ≤ sw ∧
      t.crop_rect_px.y + t.crop_rect_px.height ≤ sh := by
  have hs : 0 < max (tw / sw) (th / sh) := fill_scale_pos hsw htw th sh
  have hx := crop_axis_bounds hsw hs htw (le_max_left _ _)
  have hy := crop_axis_bounds hsh hs hth (le_max_right _ _)
  exact ⟨fillTransform sw sh tw th, fill_transform_eq hsw hsh htw hth,
    hx.1, hy.1, hx.2, hy.2⟩

/-- Witness for C10 at source 800×600, target 400×400. -/
theorem fill_crop_within_source_witness :
    ∃ t, calculate_transform 800 600 400 400 "fill" = .ok t ∧
      0 ≤ t.crop_rect_px.x ∧ 0 ≤ t.crop_rect_px.y ∧
      t.crop_rect_px.x + t.crop_rect_px.width ≤ 800 ∧
      t.crop_rect_px.y + t.crop_rect_px.height ≤ 600 :=
  fill_crop_within_source 800 600 400 400 (by norm_num) (by norm_num)
    (by norm_num) (by norm_num)

/-- C3 counterexample: source dimensions −800×−600 are non-positive, yet
`calculate_transform` raises no error and returns a transform with negative
scale factor −1/2 — there is no `InvalidDimensionsError` fail-fast. -/
theorem negative_dims_no_error :
    ((-800 : ℤ) ≤ 0) ∧
    calculate_transform (-800) (-600) 400 400 "fill" =
      .ok ⟨-(1 / 2), ⟨0, 100, -800, -800⟩⟩ ∧
    (-(1 / 2) : ℚ) ≤ 0 := by
  refine ⟨by norm_num, ?_, by norm_num⟩
  norm_num [calculate_transform, max_def, pyInt]
  norm_cast

/-- C3 amended: `calculate_transform` performs no dimension validation.  A
zero source dimension raises `ZeroDivisionError` (not a named
`InvalidDimensionsError`), and negative source dimensions are not rejected:
they can produce a transform with non-positive scale. -/
theorem calculate_transform_degenerate_dims :
    (∀ (sh : ℤ) (tw th : ℚ),
      calculate_transform 0 sh tw th "fill" = .error .zeroDivisionError) ∧
    (∀ (sw : ℤ) (tw th : ℚ),
      calculate_transform sw 0 tw th "fill" = .error .zeroDivisionError) ∧
    (∀ (sh : ℤ) (tw th : ℚ),
      calculate_transform 0 sh tw th "fit" = .error .zeroDivisionError) ∧
    (∀ (sw : ℤ) (tw th : ℚ),
      calculate_transform sw 0 tw th "fit" = .error .zeroDivisionError) ∧
    calculate_transform (-800) (-600) 400 400 "fill" =
      .ok ⟨-(1 / 2), ⟨0, 100, -800, -800⟩⟩ := by
  refine ⟨?_, ?_, ?_, ?_, ?_⟩
  · intro sh tw th
    simp [calculate_transform]
  · intro sw tw th
    simp [calculate_transform]
  · intro sh tw th
    simp [calculate_transform]
  · intro sw tw th
    simp [calculate_transform]
  · norm_num [calculate_transform, max_def, pyInt]
    norm_cast

/-- C8: for every mode other than "fill" and "fit", `calculate_transform`
fails with an error whose message names the offending mode — it never
returns a `Transform` (in the source this is `ValueError`, the error the
spec calls `UnsupportedModeError`). -/
theorem unsupported_mode_error (sw sh : ℤ) (tw th : ℚ) (mode : String)
    (h1 : mode ≠ "fill") (h2 : mode ≠ "fit") :
    calculate_transform sw sh tw th mode =
      .error (.valueError ("Unsupported scaling mode: " ++ mode)) := by
  simp [calculate_transform, h1, h2]

/-- Witness for C8 at mode "center_crop". -/
theorem unsupported_mode_error_witness :
    calculate_transform 800 600 400 400 "center_crop" =
      .error (.valueError ("Unsupported scaling mode: " ++ "center_crop")) :=
  unsupported_mode_error 800 600 400 400 "center_crop" (by simp) (by simp)

/-- C6: `px_to_mm(px, dpi) = px / dpi * 25.4` and
`mm_to_px(mm, dpi) = mm / 25.4 * dpi` are exact inverses (exactly, in the
rational model) for `px ≥ 0` and `dpi > 0`, and both map 0 to 0. -/
theorem px_mm_conversion_round_trip (px mm : ℚ) (dpi : ℤ)
    (hpx : 0 ≤ px) (hdpi : 0 < dpi) :
    px_to_mm px dpi = px / dpi * (254 / 10) ∧
    mm_to_px mm dpi = mm / (254 / 10) * dpi ∧
    mm_to_px (px_to_mm px dpi) dpi = px ∧
    px_to_mm 0 dpi = 0 ∧
    mm_to_px 0 dpi = 0 := by
  have hd : ((dpi : ℤ) : ℚ) ≠ 0 := by
    exact_mod_cast ne_of_gt hdpi
  refine ⟨rfl, rfl, ?_, by simp [px_to_mm], by simp [mm_to_px]⟩
  unfold px_to_mm mm_to_px
  field_simp
  ring

/-- Witness for C6 at `px = 3`, `dpi = 300`. -/
theorem px_mm_conversion_round_trip_witness :
    mm_to_px (px_to_mm 3 300) 300 = 3 :=
  (px_mm_conversion_round_trip 3 5 300 (by norm_num) (by norm_num)).2.2.1

/-- C7: `mm_to_pdf_coords` converts a top-left-origin mm point to a
bottom-left-origin point-unit point with factor 2.834 and vertical flip
`y_pt = (H - y_mm) * 2.834`; `(0, H)` maps to `(0, 0)` and `(0, 0)` maps
to `(0, H * 2.834)`. -/
theorem mm_to_pdf_coords_flip (x y H : ℚ) (hH : 0 < H) :
    mm_to_pdf_coords x y H = (x * (2834 / 1000), (H - y) * (2834 / 1000)) ∧
    mm_to_pdf_coords 0 H H = (0, 0) ∧
    mm_to_pdf_coords 0 0 H = (0, H * (2834 / 1000)) := by
  refine ⟨rfl, ?_, ?_⟩ <;> simp [mm_to_pdf_coords]

/-- Witness for C7 at page height 297. -/
theorem mm_to_pdf_coords_flip_witness :
    mm_to_pdf_coords 0 297 297 = (0, 0) :=
  (mm_to_pdf_coords_flip 5 7 297 (by norm_num)).2.1

/-- C9: `apply_calibration` computes `x' = x*scale_x + offset_x`,
`y' = y*scale_y + offset_y`, `width' = width*scale_x`,
`height' = height*scale_y` on every box, and the identity profile (scale
factors 1, offsets 0) returns the box unchanged. -/
theorem apply_calibration_formula :
    (∀ (b : BBoxMM) (c : CalibrationData),
      apply_calibration b c =
        ⟨b.x * c.scale_factor_x + c.offset_mm_x,
         b.y * c.scale_factor_y + c.offset_mm_y,
         b.width * c.scale_factor_x,
         b.height * c.scale_factor_y⟩) ∧
    (∀ (b : BBoxMM) (pn pt nt : String),
      apply_calibration b ⟨pn, pt, 1, 1, 0, 0, nt⟩ = b) := by
  constructor
  · intro b c
    rfl
  · intro b pn pt nt
    cases b
    simp [apply_calibration]

/-- A placeholder satisfying every Pydantic field constraint (the shape
used throughout the repository's unit tests). -/
def samplePlaceholder : Placeholder :=
  ⟨"ph_001", ⟨10, 20, 80, 60⟩, "docling", 95 / 100, ""⟩

/-- A detection record with the given placeholder list and
`validation_passed` flag; the remaining fields are the valid constants
used by the repository's unit tests. -/
def sampleDetection (phs : List Placeholder) (vp : Bool) : DetectionOutput :=
  ⟨"1.0.0", 1, "test_book", 600, 210, 297, "top_left_mm", phs, vp, "2024-01-01T00:00:00"⟩

/-- C2 counterexample: a detection record with an empty placeholder list
and `validation_passed = true` is accepted by construction — the
`check_count` validator never inspects `validation_passed`, so "empty
permitted only when `validation_passed = false`" fails on the code. -/
theorem empty_placeholders_accepted_when_passed :
    ((sampleDetection [] true).construct).isOk = true ∧
    (sampleDetection [] true).validation_passed = true := by
  constructor
  · rfl
  · rfl

/-- C2 amended: constructing a detection record with 7 placeholders fails
validation and with 6 placeholders succeeds; an empty placeholder sequence
is accepted regardless of `validation_passed`. -/
theorem placeholder_count_validation :
    ((sampleDetection (List.replicate 7 samplePlaceholder) true).construct).isOk = false ∧
    ((sampleDetection (List.replicate 6 samplePlaceholder) true).construct).isOk = true ∧
    (∀ vp : Bool, ((sampleDetection [] vp).construct).isOk = true) := by
  refine ⟨?_, ?_, ?_⟩
  · simp [DetectionOutput.construct, sampleDetection, check_count, samplePlaceholder,
      Placeholder.fieldsOk, BBoxMM.fieldsOk, MAX_PLACEHOLDERS_PER_PAGE, List.replicate]
    norm_num [Except.map, Except.isOk, Except.toBool]
  · simp [DetectionOutput.construct, sampleDetection, check_count, samplePlaceholder,
      Placeholder.fieldsOk, BBoxMM.fieldsOk, MAX_PLACEHOLDERS_PER_PAGE, List.replicate]
    norm_num [Except.map, Except.isOk, Except.toBool]
  · intro vp
    cases vp <;> rfl

/-- `calculate_iou` never returns a negative value. -/
lemma calculate_iou_nonneg (a b : BBoxMM) : 0 ≤ calculate_iou a b := by
  simp only [calculate_iou]
  split_ifs with h1 h2
  · exact le_refl 0
  · push_neg at h1
    exact div_nonneg
      (mul_nonneg (sub_nonneg.mpr h1.1) (sub_nonneg.mpr h1.2)) (le_of_lt h2)
  · exact le_refl 0

/-- `calculate_iou` never exceeds 1 for boxes of positive size. -/
lemma calculate_iou_le_one (a b : BBoxMM)
    (haw : 0 < a.width) (hah : 0 < a.height)
    (hbw : 0 < b.width) (hbh : 0 < b.height) :
    calculate_iou a b ≤ 1 := by
  simp only [calculate_iou]
  split_ifs with h1 h2
  · norm_num
  · push_neg at h1
    have hxw : min (a.x + a.width) (b.x + b.width) - max a.x b.x ≤ a.width := by
      have h3 := min_le_left (a.x + a.width) (b.x + b.width)
      have h4 := le_max_left a.x b.x
      linarith
    have hxw2 : min (a.x + a.width) (b.x + b.width) - max a.x b.x ≤ b.width := by
      have h3 := min_le_right (a.x + a.width) (b.x + b.width)
      have h4 := le_max_right a.x b.x
      linarith
    have hyh : min (a.y + a.height) (b.y + b.height) - max a.y b.y ≤ a.height := by
      have h3 := min_le_left (a.y + a.height) (b.y + b.height)
      have h4 := le_max_left a.y b.y
      linarith
    have hyh2 : min (a.y + a.height) (b.y + b.height) - max a.y b.y ≤ b.height := by
      have h3 := min_le_right (a.y + a.height) (b.y + b.height)
      have h4 := le_max_right a.y b.y
      linarith
    have hxnn : 0 ≤ min (a.x + a.width) (b.x + b.width) - max a.x b.x :=
      sub_nonneg.mpr h1.1
    have hynn : 0 ≤ min (a.y + a.height) (b.y + b.height) - max a.y b.y :=
      sub_nonneg.mpr h1.2
    have hia : (min (a.x + a.width) (b.x + b.width) - max a.x b.x) *
        (min (a.y + a.height) (b.y + b.height) - max a.y b.y) ≤ a.width * a.height :=
      mul_le_mul hxw hyh hynn (le_of_lt haw)
    have hib : (min (a.x + a.width) (b.x + b.width) - max a.x b.x) *
        (min (a.y + a.height) (b.y + b.height) - max a.y b.y) ≤ b.width * b.height :=
      mul_le_mul hxw2 hyh2 hynn (le_of_lt hbw)
    rw [div_le_one h2]
    linarith
  · norm_num

/-- `calculate_iou` of a positive-size box with itself is 1. -/
lemma calculate_iou_self (a : BBoxMM) (haw : 0 < a.width) (hah : 0 < a.height) :
    calculate_iou a a = 1 := by
  simp only [calculate_iou, max_self, min_self]
  have hi : (a.x + a.width - a.x) * (a.y + a.height - a.y) = a.width * a.height := by
    ring
  rw [if_neg (by push_neg; constructor <;> linarith), hi,
    show a.width * a.height + a.width * a.height - a.width * a.height
        = a.width * a.height from by ring,
    if_pos (mul_pos haw hah)]
  exact div_self (ne_of_gt (mul_pos haw hah))

/-- `calculate_iou` is symmetric. -/
lemma calculate_iou_comm (a b : BBoxMM) : calculate_iou a b = calculate_iou b a := by
  simp only [calculate_iou]
  rw [max_comm b.x a.x, max_comm b.y a.y, min_comm (b.x + b.width) (a.x + a.width),
    min_comm (b.y + b.height) (a.y + a.height)]
  split_ifs with h1 h2 h3
  · rfl
  · ring_nf
  · exfalso
    apply h3
    linarith
  · exfalso
    apply h2
    linarith
  · rfl

/-- `calculate_iou` is 0 when the intersection rectangle is degenerate on
either axis. -/
lemma calculate_iou_zero_of_degenerate (a b : BBoxMM)
    (h : min (a.x + a.width) (b.x + b.width) ≤ max a.x b.x ∨
      min (a.y + a.height) (b.y + b.height) ≤ max a.y b.y) :
    calculate_iou a b = 0 := by
  simp only [calculate_iou]
  by_cases hc : min (a.x + a.width) (b.x + b.width) < max a.x b.x ∨
      min (a.y + a.height) (b.y + b.height) < max a.y b.y
  · rw [if_pos hc]
  · rw [if_neg hc]
    push_neg at hc
    have hinter : (min (a.x + a.width) (b.x + b.width) - max a.x b.x) *
        (min (a.y + a.height) (b.y + b.height) - max a.y b.y) = 0 := by
      rcases h with h | h
      · rw [le_antisymm h hc.1, sub_self, zero_mul]
      · rw [le_antisymm h hc.2, sub_self, mul_zero]
    rw [hinter]
    split_ifs with h2
    · exact zero_div _
    · rfl

/-- C5: for all boxes with positive width and height,
`calculate_iou` is within [0, 1], equals 1 on identical boxes, is
symmetric, and is 0 for non-overlapping boxes including the edge-touching
zero-area-intersection case. -/
theorem calculate_iou_props (a b : BBoxMM)
    (haw : 0 < a.width) (hah : 0 < a.height)
    (hbw : 0 < b.width) (hbh : 0 < b.height) :
    0 ≤ calculate_iou a b ∧ calculate_iou a b ≤ 1 ∧
    calculate_iou a a = 1 ∧ calculate_iou a b = calculate_iou b a ∧
    ((a.x + a.width ≤ b.x ∨ b.x + b.width ≤ a.x ∨
      a.y + a.height ≤ b.y ∨ b.y + b.height ≤ a.y) → calculate_iou a b = 0) := by
  refine ⟨calculate_iou_nonneg a b, calculate_iou_le_one a b haw hah hbw hbh,
    calculate_iou_self a haw hah, calculate_iou_comm a b, fun h => ?_⟩
  apply calculate_iou_zero_of_degenerate
  rcases h with h | h | h | h
  · left
    calc min (a.x + a.width) (b.x + b.width) ≤ a.x + a.width := min_le_left _ _
      _ ≤ b.x := h
      _ ≤ max a.x b.x := le_max_right _ _
  · left
    calc min (a.x + a.width) (b.x + b.width) ≤ b.x + b.width := min_le_right _ _
      _ ≤ a.x := h
      _ ≤ max a.x b.x := le_max_left _ _
  · right
    calc min (a.y + a.height) (b.y + b.height) ≤ a.y + a.height := min_le_left _ _
      _ ≤ b.y := h
      _ ≤ max a.y b.y := le_max_right _ _
  · right
    calc min (a.y + a.height) (b.y + b.height) ≤ b.y + b.height := min_le_right _ _
      _ ≤ a.y := h
      _ ≤ max a.y b.y := le_max_left _ _

/-- Witness for C5 at the edge-touching boxes (0,0,2,2) and (2,0,2,2). -/
theorem calculate_iou_props_witness :
    0 ≤ calculate_iou ⟨0, 0, 2, 2⟩ ⟨2, 0, 2, 2⟩ ∧
    calculate_iou ⟨0, 0, 2, 2⟩ ⟨2, 0, 2, 2⟩ ≤ 1 ∧
    calculate_iou ⟨0, 0, 2, 2⟩ ⟨0, 0, 2, 2⟩ = 1 ∧
    calculate_iou ⟨0, 0, 2, 2⟩ ⟨2, 0, 2, 2⟩ = calculate_iou ⟨2, 0, 2, 2⟩ ⟨0, 0, 2, 2⟩ ∧
    (((0 : ℚ) + 2 ≤ 2 ∨ (2 : ℚ) + 2 ≤ 0 ∨ (0 : ℚ) + 2 ≤ 0 ∨ (0 : ℚ) + 2 ≤ 0) →
      calculate_iou ⟨0, 0, 2, 2⟩ ⟨2, 0, 2, 2⟩ = 0) :=
  calculate_iou_props ⟨0, 0, 2, 2⟩ ⟨2, 0, 2, 2⟩ (by norm_num) (by norm_num)
    (by norm_num) (by norm_num)

/-- The `PositionedImage` that `create_layout` assembles in fill mode for a
placeholder/image pair. -/
def fillPositioned (print_dpi : ℤ) (pf : Placeholder × ImageFile) : PositionedImage :=
  ⟨pf.1.id, pf.2.name,
   ⟨pf.1.bbox_mm.x, pf.1.bbox_mm.y, pf.1.bbox_mm.width, pf.1.bbox_mm.height⟩,
   "fill",
   fillTransform pf.2.width_px pf.2.height_px
     (mm_to_px pf.1.bbox_mm.width print_dpi) (mm_to_px pf.1.bbox_mm.height print_dpi)⟩

lemma mm_to_px_pos {mm : ℚ} {dpi : ℤ} (hm : 0 < mm) (hd : 0 < dpi) :
    0 < mm_to_px mm dpi := by
  have hdQ : (0 : ℚ) < (dpi : ℚ) := by exact_mod_cast hd
  exact mul_pos (div_pos hm (by norm_num)) hdQ

lemma buildPositioned_fill_ok (print_dpi : ℤ) (pf : Placeholder × ImageFile)
    (hw : 0 < pf.2.width_px) (hh : 0 < pf.2.height_px)
    (hbw : 0 < pf.1.bbox_mm.width) (hbh : 0 < pf.1.bbox_mm.height)
    (hd : 0 < print_dpi) :
    buildPositioned "fill" print_dpi pf.1 pf.2 = .ok (fillPositioned print_dpi pf) := by
  simp only [buildPositioned, fillPositioned]
  rw [fill_transform_eq hw hh (mm_to_px_pos hbw hd) (mm_to_px_pos hbh hd)]
  rfl

lemma buildAll_fill_ok (print_dpi : ℤ) (l : List (Placeholder × ImageFile))
    (h : ∀ pf ∈ l,
      buildPositioned "fill" print_dpi pf.1 pf.2 = .ok (fillPositioned print_dpi pf)) :
    buildAll "fill" print_dpi l = .ok (l.map (fillPositioned print_dpi)) := by
  induction l with
  | nil => rfl
  | cons pf rest ih =>
    simp only [buildAll, h pf (List.mem_cons_self _ _),
      ih fun x hx => h x (List.mem_cons_of_mem _ hx), List.map]

/-- C4: for every detection record and non-empty candidate image
collection (fill mode, positive image and placeholder dimensions, positive
DPI), `create_layout` produces exactly `min n m` positioned images, pairing
the i-th placeholder in detection order with the i-th image in sorted
filename order; leftover placeholders or images are dropped without
error. -/
theorem create_layout_ordinal_mapping (detection : DetectionOutput)
    (files : List ImageFile) (print_dpi : ℤ)
    (hne : files ≠ [])
    (hdpi : 0 < print_dpi)
    (hfiles : ∀ f ∈ files, 0 < f.width_px ∧ 0 < f.height_px)
    (hph : ∀ p ∈ detection.placeholders, 0 < p.bbox_mm.width ∧ 0 < p.bbox_mm.height) :
    ∃ layout, create_layout detection files "fill" print_dpi = .ok layout ∧
      layout.positioned_images.length =
        min detection.placeholders.length files.length ∧
      ∀ i, i < min detection.placeholders.length files.length →
        ∃ p f entry, detection.placeholders[i]? = some p ∧
          (sortByName files)[i]? = some f ∧
          layout.positioned_images[i]? = some entry ∧
          entry.placeholder_id = p.id ∧ entry.source_image = f.name := by
  have hsortlen : (sortByName files).length = files.length := by
    simp [sortByName, List.length_mergeSort]
  have hnotempty : (sortByName files).isEmpty = false := by
    rw [List.isEmpty_eq_false]
    intro hnil
    apply hne
    have := hsortlen
    rw [hnil] at this
    exact List.eq_nil_of_length_eq_zero this.symm
  have hall : ∀ pf ∈ detection.placeholders.zip (sortByName files),
      buildPositioned "fill" print_dpi pf.1 pf.2 = .ok (fillPositioned print_dpi pf) := by
    intro pf hpf
    obtain ⟨hp, hf⟩ := List.of_mem_zip hpf
    have hf2 : pf.2 ∈ files := by
      rw [sortByName, List.mem_mergeSort] at hf
      exact hf
    obtain ⟨hw, hh⟩ := hfiles pf.2 hf2
    obtain ⟨hbw, hbh⟩ := hph pf.1 hp
    exact buildPositioned_fill_ok print_dpi pf hw hh hbw hbh hdpi
  have hbuild := buildAll_fill_ok print_dpi (detection.placeholders.zip (sortByName files)) hall
  refine ⟨⟨"1.0.0", detection.page, detection.book_id,
    (detection.placeholders.zip (sortByName files)).map (fillPositioned print_dpi)⟩,
    ?_, ?_, ?_⟩
  · simp only [create_layout, hnotempty, Bool.false_eq_true, if_false, hbuild]
  · simp [List.length_zip, hsortlen]
  · intro i hi
    have hi1 : i < detection.placeholders.length := lt_of_lt_of_le hi (min_le_left _ _)
    have hi2 : i < (sortByName files).length := by
      rw [hsortlen]
      exact lt_of_lt_of_le hi (min_le_right _ _)
    have hzip : i < (detection.placeholders.zip (sortByName files)).length := by
      rw [List.length_zip]
      omega
    refine ⟨detection.placeholders[i], (sortByName files)[i],
      fillPositioned print_dpi (detection.placeholders[i], (sortByName files)[i]),
      List.getElem?_eq_getElem hi1, List.getElem?_eq_getElem hi2, ?_, rfl, rfl⟩
    simp only [List.getElem?_map, List.getElem?_eq_getElem hzip, Option.map_some]
    rw [List.getElem_zip]
    rfl

/-- Two candidate images, deliberately listed out of filename order. -/
def sampleFiles : List ImageFile := [⟨"b.jpg", 800, 600⟩, ⟨"a.jpg", 1024, 768⟩]

/-- Witness for C4: 3 placeholders and 2 candidate images yield exactly
2 positioned images. -/
theorem create_layout_ordinal_mapping_witness :
    ∃ layout, create_layout (sampleDetection (List.replicate 3 samplePlaceholder) true)
        sampleFiles "fill" 300 = .ok layout ∧
      layout.positioned_images.length = 2 := by
  obtain ⟨L, hok, hlen, _⟩ :=
    create_layout_ordinal_mapping (sampleDetection (List.replicate 3 samplePlaceholder) true)
      sampleFiles 300 (by simp [sampleFiles]) (by norm_num)
      (by
        intro f hf
        simp only [sampleFiles, List.mem_cons, List.not_mem_nil, or_false] at hf
        rcases hf with rfl | rfl <;> norm_num)
      (by
        intro p hp
        have := List.eq_of_mem_replicate hp
        subst this
        norm_num [samplePlaceholder])
  refine ⟨L, hok, ?_⟩
  rw [hlen]
  simp [sampleDetection, sampleFiles]

end SophieDiary
